import Mathlib

/-!
Shallow embedding of `src/SmartHome.py` (a home-automation simulator).

Modelling conventions:
- Python floats (`time.time()`, temperature readings, brightness, target
  temperature) are modelled as `Rat`; lux readings (`random.randint`) as `Int`.
- Python attribute mutation becomes explicit state passing: every operation
  returns the new state together with the list of observable side effects
  (`Event`): lines printed, the matplotlib rendering call, and the thread
  join of the main script.
- Python inheritance (`SmartLight`/`SmartThermostat` extending `SmartDevice`,
  with the validated `status` property setter defined on the base class) is
  flattened: each variant carries the base fields and its own copy of the
  setter with the base class's exact guard.
- The random value sources (`random.uniform` / `randint` / `choice`) and the
  wall clock (`time.time()`) are opaque external inputs; a loop tick takes the
  freshly generated samples and the current wall-clock time as a `TickInput`.
- `round(x, 2)` is modelled by `round2` below.  (Python floats round half to
  even while `round` here rounds half up; the claims only use that rounding
  two decimals is monotone, where the two agree.)
-/

namespace SmartHome

/-- Observable side effects of an operation: a printed line, the matplotlib
rendering call of `plot_data` (carrying the exported series), or the
`automation_thread.join()` performed by the main script. -/
inductive Event where
  | printed (line : String)
  | render (timestamps : List Rat) (temps : List Rat) (luxs : List Int)
      (motions : List Nat)
  | joined
  deriving Repr, DecidableEq

/-- `SmartLight` (src 31-39): base `SmartDevice` fields plus `brightness`. -/
structure SmartLight where
  device_id : String
  name : String
  status : String
  brightness : Rat
  deriving Repr, DecidableEq

/-- `SmartThermostat` (src 42-50): base fields plus `target_temperature`. -/
structure SmartThermostat where
  device_id : String
  name : String
  status : String
  target_temperature : Rat
  deriving Repr, DecidableEq

/-- The `status` property setter of `SmartDevice` (src 18-22), for a light:
accepts only `"on"`/`"off"`, prints a notification on success, and silently
leaves the state unchanged otherwise. -/
def SmartLight.setStatus (l : SmartLight) (new_status : String) :
    SmartLight × List Event :=
  if new_status = "on" ∨ new_status = "off" then
    ({ l with status := new_status },
      [Event.printed ("[" ++ l.name ++ "] Status changed to: " ++ new_status)])
  else
    (l, [])

/-- `SmartDevice.turn_on` (src 24-25) for a light. -/
def SmartLight.turn_on (l : SmartLight) : SmartLight × List Event :=
  l.setStatus "on"

/-- `SmartDevice.turn_off` (src 27-28) for a light. -/
def SmartLight.turn_off (l : SmartLight) : SmartLight × List Event :=
  l.setStatus "off"

/-- `SmartLight.set_brightness` (src 36-39): accepts only `0 ≤ level ≤ 100`,
else a silent no-op. -/
def SmartLight.set_brightness (l : SmartLight) (level : Rat) :
    SmartLight × List Event :=
  if 0 ≤ level ∧ level ≤ 100 then
    ({ l with brightness := level },
      [Event.printed ("[" ++ l.name ++ "] Brightness set to " ++
        toString level ++ "%")])
  else
    (l, [])

/-- The `status` property setter of `SmartDevice` (src 18-22), for a
thermostat. -/
def SmartThermostat.setStatus (th : SmartThermostat) (new_status : String) :
    SmartThermostat × List Event :=
  if new_status = "on" ∨ new_status = "off" then
    ({ th with status := new_status },
      [Event.printed ("[" ++ th.name ++ "] Status changed to: " ++ new_status)])
  else
    (th, [])

/-- `SmartDevice.turn_on` (src 24-25) for a thermostat. -/
def SmartThermostat.turn_on (th : SmartThermostat) :
    SmartThermostat × List Event :=
  th.setStatus "on"

/-- `SmartDevice.turn_off` (src 27-28) for a thermostat. -/
def SmartThermostat.turn_off (th : SmartThermostat) :
    SmartThermostat × List Event :=
  th.setStatus "off"

/-- `SmartThermostat.set_target_temperature` (src 47-50): accepts only
`18 ≤ temp ≤ 30`, else a silent no-op. -/
def SmartThermostat.set_target_temperature (th : SmartThermostat)
    (temp : Rat) : SmartThermostat × List Event :=
  if 18 ≤ temp ∧ temp ≤ 30 then
    ({ th with target_temperature := temp },
      [Event.printed ("[" ++ th.name ++ "] Target temperature set to " ++
        toString temp ++ "C")])
  else
    (th, [])

/-- `SmartLight.__init__` (src 32-34): `super().__init__` sets status `"off"`
(the default), then `self.brightness = brightness` is a plain, unvalidated
attribute assignment.  The Python default argument is `brightness=50`. -/
def SmartLight.init (device_id nm : String) (brightness : Rat) : SmartLight :=
  { device_id := device_id, name := nm, status := "off",
    brightness := brightness }

/-- `SmartThermostat.__init__` (src 43-45): status `"off"`, then
`self.target_temperature = target_temperature`, a plain unvalidated
assignment.  The Python default argument is `target_temperature=24`. -/
def SmartThermostat.init (device_id nm : String) (target_temperature : Rat) :
    SmartThermostat :=
  { device_id := device_id, name := nm, status := "off",
    target_temperature := target_temperature }

/-- `rule_thermostat_control` (src 119-133): reads the temperature sensor's
current value and the thermostat; turns the thermostat on when
`current_temp > target_temp + 1` or `current_temp < target_temp - 1`, and
off otherwise. -/
def rule_thermostat_control (current_temp : Rat) (thermostat : SmartThermostat) :
    SmartThermostat × List Event :=
  let target_temp := thermostat.target_temperature
  if current_temp > target_temp + 1 then
    let r := thermostat.turn_on
    (r.1, Event.printed ("[Thermostat] Cooling needed. Current: " ++
      toString current_temp ++ "C, Target: " ++ toString target_temp ++ "C")
      :: r.2)
  else if current_temp < target_temp - 1 then
    let r := thermostat.turn_on
    (r.1, Event.printed ("[Thermostat] Heating needed. Current: " ++
      toString current_temp ++ "C, Target: " ++ toString target_temp ++ "C")
      :: r.2)
  else
    let r := thermostat.turn_off
    (r.1, Event.printed ("[Thermostat] Temperature stable. Current: " ++
      toString current_temp ++ "C") :: r.2)

/-- `rule_lighting_control` (src 135-148): reads the light and motion sensor
values, the light, and `last_motion_time`; `now` stands for the value of the
`time.time()` calls made inside the rule during this tick.  Returns the new
light, the new `last_motion_time`, and the printed lines. -/
def rule_lighting_control (now : Rat) (lux : Int) (motion : Bool)
    (light : SmartLight) (last_motion_time : Rat) :
    (SmartLight × Rat) × List Event :=
  if motion then
    let new_lmt := now
    if lux < 200 ∧ light.status = "off" then
      let r1 := light.turn_on
      let r2 := r1.1.set_brightness 70
      ((r2.1, new_lmt), r1.2 ++ r2.2)
    else
      ((light, new_lmt), [])
  else
    if light.status = "on" ∧ now - last_motion_time > 30 then
      let r := light.turn_off
      ((r.1,
        last_motion_time),
        Event.printed
          "[AI] No motion detected for 30 seconds. Turning off light."
          :: r.2)
    else
      ((light, last_motion_time), [])

/-- `round(x, 2)` used at src 104 for the elapsed-seconds value. -/
def round2 (x : Rat) : Rat := (round (x * 100) : ℤ) / 100

/-- The `HomeAutomationSystem` aggregate (src 78-100).  The two devices and
three sensors created by `initialize_components` are fixed, so the
`device_id`/`sensor_id` maps are flattened into named fields; a sensor's
`value` starts as `None` (src 57) and is overwritten on each read. -/
structure HomeState where
  light : SmartLight
  thermostat : SmartThermostat
  temp_value : Option Rat
  lux_value : Option Int
  motion_value : Option Bool
  running : Bool
  last_motion_time : Rat
  start_time : Rat
  timestamps : List Rat
  temp_data : List Rat
  light_data : List Int
  motion_data : List Nat
  deriving Repr, DecidableEq

/-- `HomeAutomationSystem.__init__` plus `initialize_components`
(src 79-100): `t0` and `t1` are the values of the two `time.time()` calls
that seed `last_motion_time` and `start_time`. -/
def init_state (t0 t1 : Rat) : HomeState :=
  { light := SmartLight.init "light_1" "Living Room Light" 50,
    thermostat := SmartThermostat.init "thermostat_1" "Main Thermostat" 24,
    temp_value := none, lux_value := none, motion_value := none,
    running := false,
    last_motion_time := t0, start_time := t1,
    timestamps := [], temp_data := [], light_data := [], motion_data := [] }

/-- One tick's external inputs: the wall-clock time `now` (standing for the
`time.time()` calls made during the tick) and the fresh samples the three
sensors' `read_value` calls draw from the random source. -/
structure TickInput where
  now : Rat
  temp : Rat
  lux : Int
  motion : Bool
  deriving Repr, DecidableEq

/-- `process_sensor_data` (src 102-117): computes the elapsed time, reads
every sensor (overwriting its `value` with the tick's sample), appends one
row to the four record lists, then runs the thermostat rule and the lighting
rule. -/
def process_sensor_data (inp : TickInput) (s : HomeState) :
    HomeState × List Event :=
  let current_time := round2 (inp.now - s.start_time)
  let s2 : HomeState :=
    { s with
      temp_value := some inp.temp, lux_value := some inp.lux,
      motion_value := some inp.motion,
      timestamps := s.timestamps ++ [current_time],
      temp_data := s.temp_data ++ [inp.temp],
      light_data := s.light_data ++ [inp.lux],
      motion_data := s.motion_data ++ [if inp.motion then 1 else 0] }
  let rt := rule_thermostat_control inp.temp s2.thermostat
  let rl := rule_lighting_control inp.now inp.lux inp.motion s2.light
    s2.last_motion_time
  ({ s2 with thermostat := rt.1, light := rl.1.1, last_motion_time := rl.1.2 },
    Event.printed "--- Reading Sensor Data ---"
      :: Event.printed ("Temperature Sensor: " ++ toString inp.temp)
      :: Event.printed ("Light Sensor: " ++ toString inp.lux)
      :: Event.printed ("Motion Sensor: " ++ toString inp.motion)
      :: (rt.2 ++ rl.2))

/-- The body of `start_monitoring`'s `while self.running` loop (src 153-155),
run for a given sequence of tick inputs: the number of ticks executed before
the stop flag is observed is the length of the input list.  (The per-tick
`time.sleep` only spends wall-clock time.) -/
def runTicks (s : HomeState) : List TickInput → HomeState × List Event
  | [] => (s, [])
  | inp :: rest =>
    let r := process_sensor_data inp s
    let r2 := runTicks r.1 rest
    (r2.1, r.2 ++ r2.2)

/-- `plot_data` (src 162-174): prints, then hands the four recorded series
to matplotlib (the rendering sink). -/
def plot_data (s : HomeState) : List Event :=
  [Event.printed "Generating visualization...",
    Event.render s.timestamps s.temp_data s.light_data s.motion_data]

/-- `stop_monitoring` (src 157-160): sets `running` to `False`, prints, and
then itself calls `plot_data()`. -/
def stop_monitoring (s : HomeState) : HomeState × List Event :=
  let s1 : HomeState := { s with running := false }
  (s1, Event.printed "-- Stopping Home Automation System --" :: plot_data s1)

/-- The `KeyboardInterrupt` handler of the main script (src 187-190): calls
`stop_monitoring()` (which renders), then joins the automation thread, then
prints. -/
def main_interrupt_handler (s : HomeState) : HomeState × List Event :=
  let r := stop_monitoring s
  (r.1, r.2 ++ [Event.joined, Event.printed "System stopped gracefully."])

/-- Whether an event is the rendering call. -/
def isRender : Event → Bool
  | Event.render _ _ _ _ => true
  | _ => false

/-- Whether an event is the thread join. -/
def isJoined : Event → Bool
  | Event.joined => true
  | _ => false

/-- How many rendering calls a list of events contains. -/
def countRender (evs : List Event) : Nat := (evs.filter isRender).length

/-- The thermostat state after the rule, as a single case split: only the
status changes, to on exactly when the temperature is outside the band. -/
lemma thermostat_rule_result (t : Rat) (th : SmartThermostat) :
    (rule_thermostat_control t th).1 =
      { th with status :=
          if t > th.target_temperature + 1 ∨ t < th.target_temperature - 1
          then "on" else "off" } := by
  simp only [rule_thermostat_control, SmartThermostat.turn_on,
    SmartThermostat.turn_off, SmartThermostat.setStatus, gt_iff_lt]
  split_ifs with h1 h2 h3 h4 h5 <;> simp_all
  obtain h | h :=
    ‹th.target_temperature + 1 < t ∨ t < th.target_temperature - 1›
  · linarith
  · linarith

/-- The thermostat's status after the rule, as a single case split. -/
lemma thermostat_rule_status_eq (t : Rat) (th : SmartThermostat) :
    ((rule_thermostat_control t th).1).status =
      if t > th.target_temperature + 1 ∨ t < th.target_temperature - 1
      then "on" else "off" := by
  rw [thermostat_rule_result]

/-- The rule never changes the thermostat's `target_temperature` (or its
identity fields). -/
lemma thermostat_rule_frame (t : Rat) (th : SmartThermostat) :
    ((rule_thermostat_control t th).1).target_temperature
        = th.target_temperature
      ∧ ((rule_thermostat_control t th).1).device_id = th.device_id
      ∧ ((rule_thermostat_control t th).1).name = th.name := by
  simp only [rule_thermostat_control, SmartThermostat.turn_on,
    SmartThermostat.turn_off, SmartThermostat.setStatus, gt_iff_lt]
  split_ifs <;> simp_all

/-- Claim C8: the thermostat rule is a pure function of the pair
(current temperature, target temperature) — its resulting status depends on
nothing else — and it is idempotent: applying it twice in succession with the
same readings yields the same device state (in particular the same status) as
applying it once. -/
theorem thermostat_rule_pure_idempotent (t : Rat) (th1 th2 : SmartThermostat) :
    (th1.target_temperature = th2.target_temperature →
      ((rule_thermostat_control t th1).1).status
        = ((rule_thermostat_control t th2).1).status)
  ∧ (rule_thermostat_control t ((rule_thermostat_control t th1).1)).1
      = (rule_thermostat_control t th1).1 := by
  constructor
  · intro h
    rw [thermostat_rule_status_eq, thermostat_rule_status_eq, h]
  · rw [thermostat_rule_result t th1,
      thermostat_rule_result t { th1 with status :=
        if t > th1.target_temperature + 1 ∨ t < th1.target_temperature - 1
        then "on" else "off" }]

/-- Witness for C8: purity at two thermostats sharing target 24 but
differing elsewhere, evaluated at `t = 26`. -/
theorem thermostat_rule_pure_idempotent_witness :
    ((rule_thermostat_control 26
        (SmartThermostat.init "thermostat_1" "Main Thermostat" 24)).1).status
      = ((rule_thermostat_control 26
        { device_id := "x", name := "Other", status := "on",
          target_temperature := 24 }).1).status :=
  (thermostat_rule_pure_idempotent 26
      (SmartThermostat.init "thermostat_1" "Main Thermostat" 24)
      { device_id := "x", name := "Other", status := "on",
        target_temperature := 24 }).1 rfl

/-- Claim C1: the thermostat rule, applied to current temperature `t` and
target temperature `target`, turns the thermostat on when `t > target + 1`,
turns it on when `t < target - 1`, and turns it off in every other case; in
particular the boundary values `t = target + 1` and `t = target - 1` both
take the off (stable) branch. -/
theorem thermostat_rule_cases (t : Rat) (th : SmartThermostat) :
    (t > th.target_temperature + 1 →
      ((rule_thermostat_control t th).1).status = "on")
  ∧ (t < th.target_temperature - 1 →
      ((rule_thermostat_control t th).1).status = "on")
  ∧ (¬ t > th.target_temperature + 1 → ¬ t < th.target_temperature - 1 →
      ((rule_thermostat_control t th).1).status = "off")
  ∧ (t = th.target_temperature + 1 →
      ((rule_thermostat_control t th).1).status = "off")
  ∧ (t = th.target_temperature - 1 →
      ((rule_thermostat_control t th).1).status = "off") := by
  refine ⟨?_, ?_, ?_, ?_, ?_⟩ <;> intro h
  · rw [thermostat_rule_status_eq, if_pos (Or.inl h)]
  · rw [thermostat_rule_status_eq, if_pos (Or.inr h)]
  · intro h2
    rw [thermostat_rule_status_eq, if_neg (by tauto)]
  · rw [thermostat_rule_status_eq, if_neg (by rw [h]; push_neg; constructor <;> linarith)]
  · rw [thermostat_rule_status_eq, if_neg (by rw [h]; push_neg; constructor <;> linarith)]

/-- Witness for C1: at `t = 26`, `target = 24` the rule turns the thermostat
on, and at the boundary `t = 25 = target + 1` it turns it off. -/
theorem thermostat_rule_cases_witness :
    ((rule_thermostat_control 26
        (SmartThermostat.init "thermostat_1" "Main Thermostat" 24)).1).status
        = "on"
      ∧ ((rule_thermostat_control 25
        (SmartThermostat.init "thermostat_1" "Main Thermostat" 24)).1).status
        = "off" :=
  ⟨(thermostat_rule_cases 26
      (SmartThermostat.init "thermostat_1" "Main Thermostat" 24)).1
      (by norm_num [SmartThermostat.init]),
    (thermostat_rule_cases 25
      (SmartThermostat.init "thermostat_1" "Main Thermostat" 24)).2.2.2.1
      (by norm_num [SmartThermostat.init])⟩

/-- Claim C2: the lighting rule, when the motion reading is true, always
updates `last_motion_time` to the current time; additionally, if `lux < 200`
and the light's status is off, it turns the light on and sets its brightness
to 70; if motion is true but `lux ≥ 200` or the light is already on, the
light is unchanged. -/
theorem lighting_rule_motion (now lmt : Rat) (lux : Int) (light : SmartLight) :
    ((rule_lighting_control now lux true light lmt).1.2 = now)
  ∧ (lux < 200 → light.status = "off" →
      ((rule_lighting_control now lux true light lmt).1.1.status = "on"
        ∧ (rule_lighting_control now lux true light lmt).1.1.brightness = 70))
  ∧ (200 ≤ lux ∨ light.status = "on" →
      (rule_lighting_control now lux true light lmt).1.1 = light) := by
  simp only [rule_lighting_control, SmartLight.turn_on, SmartLight.setStatus,
    SmartLight.set_brightness, if_true]
  refine ⟨?_, ?_, ?_⟩
  · split_ifs <;> rfl
  · intro h1 h2
    rw [if_pos ⟨h1, h2⟩]
    norm_num
  · intro h
    rw [if_neg]
    rcases h with h | h
    · rintro ⟨h1, -⟩
      omega
    · rintro ⟨-, h2⟩
      rw [h] at h2
      simp at h2

/-- Witness for C2: with motion, `lux = 150`, and the initial (off) light,
the light ends on at brightness 70; with `lux = 250` it stays off. -/
theorem lighting_rule_motion_witness :
    ((rule_lighting_control 7 150 true
        (SmartLight.init "light_1" "Living Room Light" 50) 0).1.1.status = "on"
      ∧ (rule_lighting_control 7 150 true
        (SmartLight.init "light_1" "Living Room Light" 50) 0).1.1.brightness
          = 70)
    ∧ (rule_lighting_control 7 250 true
        (SmartLight.init "light_1" "Living Room Light" 50) 0).1.1
        = SmartLight.init "light_1" "Living Room Light" 50 :=
  ⟨(lighting_rule_motion 7 0 150
      (SmartLight.init "light_1" "Living Room Light" 50)).2.1
      (by norm_num) rfl,
    (lighting_rule_motion 7 0 250
      (SmartLight.init "light_1" "Living Room Light" 50)).2.2
      (Or.inl (by norm_num))⟩

/-- Claim C3: the lighting rule, when the motion reading is false, turns the
light off exactly when the light's status is on and the elapsed time since
`last_motion_time` strictly exceeds 30 seconds; if the elapsed time is at
most 30 seconds, or the light is already off, its state is unchanged (and
`last_motion_time` is never modified in this branch). -/
theorem lighting_rule_no_motion (now lmt : Rat) (lux : Int)
    (light : SmartLight) :
    ((rule_lighting_control now lux false light lmt).1.2 = lmt)
  ∧ ((rule_lighting_control now lux false light lmt).1.1.status
        ≠ light.status
      ↔ (light.status = "on" ∧ now - lmt > 30))
  ∧ (light.status = "on" → now - lmt > 30 →
      (rule_lighting_control now lux false light lmt).1.1.status = "off")
  ∧ (now - lmt ≤ 30 →
      (rule_lighting_control now lux false light lmt).1.1 = light)
  ∧ (light.status = "off" →
      (rule_lighting_control now lux false light lmt).1.1 = light) := by
  simp only [rule_lighting_control, SmartLight.turn_off, SmartLight.setStatus,
    gt_iff_lt, Bool.false_eq_true, if_false]
  refine ⟨?_, ?_, ?_, ?_, ?_⟩
  · split_ifs <;> rfl
  · constructor
    · intro h
      by_contra hc
      rw [if_neg hc] at h
      exact h rfl
    · rintro ⟨h1, h2⟩
      rw [if_pos ⟨h1, h2⟩]
      simp [h1]
  · intro h1 h2
    rw [if_pos ⟨h1, h2⟩]
    simp
  · intro h
    rw [if_neg]
    rintro ⟨-, h2⟩
    linarith
  · intro h
    rw [if_neg]
    rintro ⟨h1, -⟩
    rw [h] at h1
    simp at h1

/-- Witness for C3: a light that is on goes off 31 s after the last motion,
and is untouched 10 s after it. -/
theorem lighting_rule_no_motion_witness :
    (rule_lighting_control 31 300 false
        { device_id := "light_1", name := "Living Room Light",
          status := "on", brightness := 70 } 0).1.1.status = "off"
      ∧ (rule_lighting_control 10 300 false
        { device_id := "light_1", name := "Living Room Light",
          status := "on", brightness := 70 } 0).1.1
        = { device_id := "light_1", name := "Living Room Light",
            status := "on", brightness := 70 } :=
  ⟨(lighting_rule_no_motion 31 0 300
      { device_id := "light_1", name := "Living Room Light",
        status := "on", brightness := 70 }).2.2.1 rfl (by norm_num),
    (lighting_rule_no_motion 10 0 300
      { device_id := "light_1", name := "Living Room Light",
        status := "on", brightness := 70 }).2.2.2.1 (by norm_num)⟩

/-- Claim C4: `set_brightness b` on a light mutates the brightness (to `b`)
iff `0 ≤ b ≤ 100`, and `set_target_temperature t` on a thermostat mutates the
target (to `t`) iff `18 ≤ t ≤ 30`; out-of-domain requests leave the device
entirely unchanged, print nothing, and (both setters being total functions)
raise no error. -/
theorem setter_domain_guard (l : SmartLight) (th : SmartThermostat)
    (b t : Rat) :
    ((0 ≤ b ∧ b ≤ 100) →
      (l.set_brightness b).1 = { l with brightness := b })
  ∧ (¬(0 ≤ b ∧ b ≤ 100) → l.set_brightness b = (l, []))
  ∧ ((18 ≤ t ∧ t ≤ 30) →
      (th.set_target_temperature t).1 = { th with target_temperature := t })
  ∧ (¬(18 ≤ t ∧ t ≤ 30) → th.set_target_temperature t = (th, [])) := by
  refine ⟨?_, ?_, ?_, ?_⟩ <;> intro h <;>
    simp [SmartLight.set_brightness, SmartThermostat.set_target_temperature,
      h]

/-- Witness for C4: brightness 150 is silently ignored while 70 is applied,
and target 50 is silently ignored while 25 is applied. -/
theorem setter_domain_guard_witness :
    (SmartLight.init "light_1" "Living Room Light" 50).set_brightness 150
        = (SmartLight.init "light_1" "Living Room Light" 50, [])
      ∧ ((SmartLight.init "light_1" "Living Room Light" 50).set_brightness
          70).1.brightness = 70
      ∧ (SmartThermostat.init "thermostat_1" "Main Thermostat"
          24).set_target_temperature 50
        = (SmartThermostat.init "thermostat_1" "Main Thermostat" 24, [])
      ∧ ((SmartThermostat.init "thermostat_1" "Main Thermostat"
          24).set_target_temperature 25).1.target_temperature = 25 :=
  ⟨(setter_domain_guard (SmartLight.init "light_1" "Living Room Light" 50)
      (SmartThermostat.init "thermostat_1" "Main Thermostat" 24) 150
      50).2.1 (by norm_num),
    by rw [(setter_domain_guard
        (SmartLight.init "light_1" "Living Room Light" 50)
        (SmartThermostat.init "thermostat_1" "Main Thermostat" 24) 70
        50).1 (by norm_num)],
    (setter_domain_guard (SmartLight.init "light_1" "Living Room Light" 50)
      (SmartThermostat.init "thermostat_1" "Main Thermostat" 24) 150
      50).2.2.2 (by norm_num),
    by rw [(setter_domain_guard
        (SmartLight.init "light_1" "Living Room Light" 50)
        (SmartThermostat.init "thermostat_1" "Main Thermostat" 24) 150
        25).2.2.1 (by norm_num)]⟩

/-- Claim C9: the status setter silently ignores any value outside
`{"on", "off"}` — the device is unchanged and no notification is printed —
so every operation preserves the two-valued status domain. -/
theorem status_setter_closed (l : SmartLight) (th : SmartThermostat)
    (ns : String) :
    (¬(ns = "on" ∨ ns = "off") →
      l.setStatus ns = (l, []) ∧ th.setStatus ns = (th, []))
  ∧ ((l.status = "on" ∨ l.status = "off") →
      ((l.setStatus ns).1.status = "on" ∨ (l.setStatus ns).1.status = "off"))
  ∧ ((th.status = "on" ∨ th.status = "off") →
      ((th.setStatus ns).1.status = "on"
        ∨ (th.setStatus ns).1.status = "off")) := by
  refine ⟨?_, ?_, ?_⟩ <;> intro h
  · simp [SmartLight.setStatus, SmartThermostat.setStatus, h]
  · by_cases hn : ns = "on" ∨ ns = "off" <;>
      simp [SmartLight.setStatus, hn, h]
  · by_cases hn : ns = "on" ∨ ns = "off" <;>
      simp [SmartThermostat.setStatus, hn, h]

/-- Witness for C9: assigning status `"dim"` to the initial light leaves it
unchanged and prints nothing, and the result's status is still in
`{"on", "off"}`. -/
theorem status_setter_closed_witness :
    ((SmartLight.init "light_1" "Living Room Light" 50).setStatus "dim"
        = (SmartLight.init "light_1" "Living Room Light" 50, [])
      ∧ (SmartThermostat.init "thermostat_1" "Main Thermostat" 24).setStatus
          "dim"
        = (SmartThermostat.init "thermostat_1" "Main Thermostat" 24, []))
    ∧ (((SmartLight.init "light_1" "Living Room Light" 50).setStatus
        "dim").1.status = "on"
      ∨ ((SmartLight.init "light_1" "Living Room Light" 50).setStatus
        "dim").1.status = "off") :=
  ⟨(status_setter_closed (SmartLight.init "light_1" "Living Room Light" 50)
      (SmartThermostat.init "thermostat_1" "Main Thermostat" 24) "dim").1
      (by simp),
    (status_setter_closed (SmartLight.init "light_1" "Living Room Light" 50)
      (SmartThermostat.init "thermostat_1" "Main Thermostat" 24) "dim").2.1
      (Or.inr rfl)⟩

/-- Claim C10: the `SmartLight` and `SmartThermostat` constructors do not
validate their tunable arguments: for every `level` (also outside `[0,100]`)
the constructed light's brightness is exactly `level`, and for every `temp`
(also outside `[18,30]`) the constructed thermostat's target is exactly
`temp`; the domain invariants are enforced only by the setters. -/
theorem constructor_no_validation (did nm : String) (level temp : Rat) :
    (SmartLight.init did nm level).brightness = level
  ∧ (SmartThermostat.init did nm temp).target_temperature = temp :=
  ⟨rfl, rfl⟩

/-- Counterexample to C5 as stated: `stop_monitoring`, called on the
freshly initialized system, does itself invoke the rendering step (once),
and calling it a second time when already stopped invokes the rendering
step again — it is not a pure flag flip and not observation-free when
repeated. -/
theorem stop_monitoring_renders_counterexample :
    countRender ((stop_monitoring (init_state 0 0)).2) = 1
      ∧ countRender
          ((stop_monitoring ((stop_monitoring (init_state 0 0)).1)).2)
        = 1 := by
  constructor <;> rfl

/-- Claim C5 (amended): `stop_monitoring`'s only state change is setting the
running flag to false, and a second call when already stopped leaves the
state unchanged; however each call (the repeated one included) itself
invokes the rendering step on the recorded series. -/
theorem stop_monitoring_effects (s : HomeState) :
    (stop_monitoring s).1 = { s with running := false }
  ∧ countRender ((stop_monitoring s).2) = 1
  ∧ (stop_monitoring ((stop_monitoring s).1)).1 = (stop_monitoring s).1
  ∧ countRender ((stop_monitoring ((stop_monitoring s).1)).2) = 1 := by
  refine ⟨rfl, ?_, rfl, ?_⟩ <;>
    simp [stop_monitoring, plot_data, countRender, isRender]

/-- Counterexample to C6 as stated: in the main script's interrupt handler,
run on the freshly initialized system, the rendering call occurs strictly
before the thread join — not after the loop has been joined. -/
theorem render_before_join_counterexample :
    ((main_interrupt_handler (init_state 0 0)).2).findIdx isRender
      < ((main_interrupt_handler (init_state 0 0)).2).findIdx isJoined := by
  norm_num [main_interrupt_handler, stop_monitoring, plot_data, isRender,
    isJoined, List.findIdx_cons]

/-- Claim C6 (amended): during a run in which the stop signal arrives once,
the rendering sink is invoked exactly once, but it is invoked from inside
`stop_monitoring` before the control loop is joined, so it precedes the join
(and may overlap a still-running loop tick) rather than following it. -/
theorem shutdown_render_once_before_join (s : HomeState) :
    countRender ((main_interrupt_handler s).2) = 1
  ∧ (((main_interrupt_handler s).2).filter isJoined).length = 1
  ∧ ((main_interrupt_handler s).2).findIdx isRender
      < ((main_interrupt_handler s).2).findIdx isJoined := by
  refine ⟨?_, ?_, ?_⟩ <;>
    simp [main_interrupt_handler, stop_monitoring, plot_data, countRender,
      isRender, isJoined, List.findIdx_cons]

/-- One tick appends exactly one value to each record list, leaves the
previously recorded values in place, and does not change `start_time`. -/
lemma process_sensor_data_records (inp : TickInput) (s : HomeState) :
    ((process_sensor_data inp s).1).timestamps
        = s.timestamps ++ [round2 (inp.now - s.start_time)]
  ∧ ((process_sensor_data inp s).1).temp_data = s.temp_data ++ [inp.temp]
  ∧ ((process_sensor_data inp s).1).light_data = s.light_data ++ [inp.lux]
  ∧ ((process_sensor_data inp s).1).motion_data
        = s.motion_data ++ [if inp.motion then 1 else 0]
  ∧ ((process_sensor_data inp s).1).start_time = s.start_time :=
  ⟨rfl, rfl, rfl, rfl, rfl⟩

/-- Running the loop over a tick sequence appends exactly the per-tick rows,
in tick order, to each record list. -/
lemma runTicks_records (s : HomeState) (ticks : List TickInput) :
    ((runTicks s ticks).1).timestamps
        = s.timestamps
            ++ ticks.map (fun i => round2 (i.now - s.start_time))
  ∧ ((runTicks s ticks).1).temp_data
        = s.temp_data ++ ticks.map (fun i => i.temp)
  ∧ ((runTicks s ticks).1).light_data
        = s.light_data ++ ticks.map (fun i => i.lux)
  ∧ ((runTicks s ticks).1).motion_data
        = s.motion_data ++ ticks.map (fun i => if i.motion then 1 else 0)
  ∧ ((runTicks s ticks).1).start_time = s.start_time := by
  induction ticks generalizing s with
  | nil => simp [runTicks]
  | cons inp rest ih =>
    obtain ⟨h1, h2, h3, h4, h5⟩ := process_sensor_data_records inp s
    obtain ⟨g1, g2, g3, g4, g5⟩ := ih ((process_sensor_data inp s).1)
    refine ⟨?_, ?_, ?_, ?_, ?_⟩ <;>
      simp [runTicks, g1, g2, g3, g4, g5, h1, h2, h3, h4, h5]

/-- Rounding to two decimals is monotone. -/
lemma round2_mono {a b : Rat} (h : a ≤ b) : round2 a ≤ round2 b := by
  unfold round2
  have hf : round (a * 100) ≤ round (b * 100) := by
    rw [round_eq, round_eq]
    exact Int.floor_mono (by linarith)
  gcongr

/-- Claim C7: for every run of the control loop (started on a system whose
record lists are empty, with a non-decreasing wall clock), the recorded time
series has exactly one row per executed tick — each of the four record lists
has length equal to the number of ticks —, its `elapsed_seconds` values are
non-decreasing in append order, and the series is append-only: the rows
recorded by any prefix of the run are a prefix of the final series,
unchanged. -/
theorem recorder_one_row_per_tick (s : HomeState) (ticks : List TickInput)
    (h0 : s.timestamps = []) (h1 : s.temp_data = [])
    (h2 : s.light_data = []) (h3 : s.motion_data = [])
    (hmono : ticks.Pairwise (fun a b => a.now ≤ b.now)) :
    ((runTicks s ticks).1).timestamps.length = ticks.length
  ∧ ((runTicks s ticks).1).temp_data.length = ticks.length
  ∧ ((runTicks s ticks).1).light_data.length = ticks.length
  ∧ ((runTicks s ticks).1).motion_data.length = ticks.length
  ∧ ((runTicks s ticks).1).timestamps.Pairwise (· ≤ ·)
  ∧ ∀ pre suf, ticks = pre ++ suf →
      ∃ rest, ((runTicks s ticks).1).timestamps
        = ((runTicks s pre).1).timestamps ++ rest := by
  obtain ⟨r1, r2, r3, r4, r5⟩ := runTicks_records s ticks
  refine ⟨?_, ?_, ?_, ?_, ?_, ?_⟩
  · rw [r1, h0]
    simp
  · rw [r2, h1]
    simp
  · rw [r3, h2]
    simp
  · rw [r4, h3]
    simp
  · rw [r1, h0, List.nil_append]
    exact List.Pairwise.map _
      (fun a b hab => round2_mono (by linarith)) hmono
  · intro pre suf hsplit
    obtain ⟨p1, _, _, _, _⟩ := runTicks_records s pre
    refine ⟨suf.map (fun i => round2 (i.now - s.start_time)), ?_⟩
    rw [r1, p1, hsplit]
    simp

/-- Witness for C7: a concrete two-tick run from the initial state records
exactly two rows. -/
theorem recorder_one_row_per_tick_witness :
    (((runTicks (init_state 0 0)
        [TickInput.mk 0 26 150 true,
          TickInput.mk 5 (49/2) 300 false]).1).timestamps).length = 2 :=
  (recorder_one_row_per_tick (init_state 0 0)
      [TickInput.mk 0 26 150 true, TickInput.mk 5 (49/2) 300 false]
      rfl rfl rfl rfl (by norm_num [List.pairwise_cons])).1

end SmartHome
